import Mathlib

/-!
Verification of the request-governance layer of the south-african-services
client: the token codec and credential storage (src/lib/jwt.ts), the
single-flight token refresh and request dispatch of the API client
(src/lib/api.ts), and the rate limiter (src/lib/security.ts).

JavaScript host primitives (single-character string split, decimal number
rendering and parsing, localStorage) are modelled explicitly; the network
and the JSON parser are modelled as oracles passed in as parameters.
-/

namespace SAS

/-! JavaScript string and number primitives used by the source. -/

/-- JavaScript single-character `String.prototype.split`: splitting the empty
string yields `[""]`, and separators at either end produce empty segments. -/
def jsSplit (sep : Char) : List Char → List (List Char)
  | [] => [[]]
  | c :: rest =>
    let r := jsSplit sep rest
    if c = sep then [] :: r
    else
      match r with
      | [] => [[c]]
      | h :: t => (c :: h) :: t

/-- The character for a single decimal digit (`d ≤ 9`). -/
def digitChar (d : Nat) : Char :=
  match d with
  | 0 => '0' | 1 => '1' | 2 => '2' | 3 => '3' | 4 => '4'
  | 5 => '5' | 6 => '6' | 7 => '7' | 8 => '8' | _ => '9'

/-- The decimal digit denoted by a character, if any (codepoints 48–57). -/
def charDigit (c : Char) : Option Nat :=
  if 48 ≤ c.toNat ∧ c.toNat ≤ 57 then some (c.toNat - 48) else none

/-- Fuel-driven decimal digit expansion, most significant digit first
(structural recursion so that concrete values reduce in the kernel). -/
def toDecimalAux : Nat → Nat → List Nat → List Nat
  | 0, _, acc => acc
  | fuel + 1, n, acc => if n < 10 then n :: acc else toDecimalAux fuel (n / 10) (n % 10 :: acc)

/-- Decimal digits of a natural number, most significant first. -/
def toDecimalDigits (n : Nat) : List Nat := toDecimalAux (n + 1) n []

/-- Reference digit expansion by well-founded recursion, used only to prove
facts about `toDecimalDigits`. -/
def toDecimalRec (n : Nat) : List Nat :=
  if n < 10 then [n] else toDecimalRec (n / 10) ++ [n % 10]
decreasing_by exact Nat.div_lt_self (by omega) (by omega)

/-- Models JavaScript number-to-string (`expiryTime.toString()`) on
nonnegative integers: the canonical decimal numeral. -/
def natToString (n : Nat) : String := ⟨(toDecimalDigits n).map digitChar⟩

/-- Models `parseInt(s, 10)` on canonical decimal numerals; a `NaN` result
(no leading digits) is collapsed to `none`. -/
def parseDecimal (s : String) : Option Nat :=
  match s.data.mapM charDigit with
  | none => none
  | some ds =>
    match ds with
    | [] => none
    | _ => some (ds.foldl (fun a d => a * 10 + d) 0)

/-! The browser localStorage, modelled as a partial map from keys to strings
(src/lib/jwt.ts stores everything through localStorage). -/

/-- A localStorage snapshot. -/
abbrev Store := String → Option String

def Store.getItem (s : Store) (k : String) : Option String := s k

def Store.setItem (s : Store) (k v : String) : Store :=
  fun k' => if k' = k then some v else s k'

def Store.removeItem (s : Store) (k : String) : Store :=
  fun k' => if k' = k then none else s k'

namespace TokenStorage

def ACCESS_TOKEN_KEY : String := "sa_services_access_token"

def REFRESH_TOKEN_KEY : String := "sa_services_refresh_token"

def TOKEN_EXPIRY_KEY : String := "sa_services_token_expiry"

/-- `TokenStorage.setTokens` (src/lib/jwt.ts:129): computes the absolute
expiry `Date.now() + expiresIn * 1000` and stores all three fields. -/
def setTokens (s : Store) (accessToken refreshToken : String) (expiresIn now : Nat) : Store :=
  let expiryTime := now + expiresIn * 1000
  ((s.setItem ACCESS_TOKEN_KEY accessToken).setItem REFRESH_TOKEN_KEY refreshToken).setItem
    TOKEN_EXPIRY_KEY (natToString expiryTime)

/-- `TokenStorage.getAccessToken` (src/lib/jwt.ts:137). -/
def getAccessToken (s : Store) : Option String := s.getItem ACCESS_TOKEN_KEY

/-- `TokenStorage.getRefreshToken` (src/lib/jwt.ts:141). -/
def getRefreshToken (s : Store) : Option String := s.getItem REFRESH_TOKEN_KEY

/-- `TokenStorage.getTokenExpiry` (src/lib/jwt.ts:145):
`expiry ? parseInt(expiry, 10) : null`, where the empty string is falsy. -/
def getTokenExpiry (s : Store) : Option Nat :=
  match s.getItem TOKEN_EXPIRY_KEY with
  | none => none
  | some e => if e = ("") then none else parseDecimal e

/-- `TokenStorage.clearTokens` (src/lib/jwt.ts:150): removes all three keys. -/
def clearTokens (s : Store) : Store :=
  ((s.removeItem ACCESS_TOKEN_KEY).removeItem REFRESH_TOKEN_KEY).removeItem TOKEN_EXPIRY_KEY

end TokenStorage

/-! The token codec (class JWTUtils, src/lib/jwt.ts). The browser `atob` and
`JSON.parse` are host builtins, passed in as oracles: a call that throws is
modelled as `none` (the surrounding try/catch converts any exception to
`null`), and a `JSON.parse` result that is not a structured claims object is
likewise modelled as `none`. -/

/-- The decoded claims object (interface JWTPayload, src/lib/jwt.ts:6). -/
structure JWTPayload where
  sub : String
  email : String
  role : String
  iat : Int
  exp : Int
  type : String

namespace JWTUtils

/-- The two global character replacements at src/lib/jwt.ts:34: dash becomes
plus and underscore becomes slash — base64url alphabet to base64 alphabet,
character by character. -/
def base64urlAdjust (payload : List Char) : List Char :=
  payload.map (fun c => if c = '-' then '+' else if c = '_' then '/' else c)

/-- `JWTUtils.decodeToken` (src/lib/jwt.ts:26): split on dots, require
exactly 3 segments, base64url-decode the middle segment, parse it as JSON;
every failure path returns `null` via the try/catch. -/
def decodeToken (atob : List Char → Option (List Char))
    (jsonParse : List Char → Option JWTPayload) (token : List Char) : Option JWTPayload :=
  match jsSplit ('.') token with
  | [_, payload, _] =>
    match atob (base64urlAdjust payload) with
    | none => none
    | some decoded => jsonParse decoded
  | _ => none

/-- `JWTUtils.isTokenExpired` (src/lib/jwt.ts:45): an undecodable token is
expired; otherwise compare `exp` with the current time in seconds. -/
def isTokenExpired (atob : List Char → Option (List Char))
    (jsonParse : List Char → Option JWTPayload) (now : Int) (token : List Char) : Bool :=
  match decodeToken atob jsonParse token with
  | none => true
  | some payload => decide (payload.exp < now)

end JWTUtils

/-! The API client (class ApiClient, src/lib/api.ts). -/

/-- The `data.data` payload of a successful refresh response
(src/lib/api.ts:169). -/
structure RefreshData where
  access_token : String
  refresh_token : String
  expires_in : Nat

/-- What the network returns for the refresh call, as seen after
`await fetch(...)` and `await response.json()`: either a failure that throws
inside the try block (transport error or JSON parse error), or a parsed
response carrying the HTTP ok flag, the body success flag and the optional
data payload. -/
inductive FetchOutcome where
  | fetchFailed : FetchOutcome
  | resp (ok : Bool) (success : Bool) (data : Option RefreshData) : FetchOutcome

/-- Result of one execution of `ApiClient.performTokenRefresh`: the
localStorage state after the call, the settled promise value (`Except.ok`
with the new access token, or `Except.error` for a thrown session failure),
and how many network calls to the refresh endpoint were made. -/
structure RefreshResult where
  store : Store
  result : Except Unit String
  networkCalls : Nat

/-- `ApiClient.performTokenRefresh` (src/lib/api.ts:141–183). `isExpired`
abstracts `JWTUtils.isTokenExpired` at the current clock (the stored tokens
are strings; decoding them goes through the host oracles). -/
def performTokenRefresh (s : Store) (isExpired : String → Bool) (now : Nat)
    (fetch : FetchOutcome) : RefreshResult :=
  match TokenStorage.getRefreshToken s with
  | none => ⟨s, Except.error (), 0⟩
  | some refreshToken =>
    if isExpired refreshToken then
      ⟨TokenStorage.clearTokens s, Except.error (), 0⟩
    else
      match fetch with
      | FetchOutcome.fetchFailed => ⟨TokenStorage.clearTokens s, Except.error (), 1⟩
      | FetchOutcome.resp ok success data =>
        if ok then
          match success, data with
          | true, some d =>
            ⟨TokenStorage.setTokens s d.access_token d.refresh_token d.expires_in now,
              Except.ok d.access_token, 1⟩
          | _, _ => ⟨TokenStorage.clearTokens s, Except.error (), 1⟩
        else ⟨TokenStorage.clearTokens s, Except.error (), 1⟩

/-- The single-flight state of the client: the `refreshPromise` field
(src/lib/api.ts:91), plus the list of promises created so far (newest
first), each promise standing for one execution of `performTokenRefresh`. -/
structure SingleFlightState where
  refreshPromise : Option Nat
  createdRev : List Nat

/-- The synchronous prefix of `ApiClient.refreshAccessToken`
(src/lib/api.ts:127–131) run by one caller: on the JS event loop the null
check and the assignment `this.refreshPromise = this.performTokenRefresh()`
execute atomically (there is no await between them). The caller either
attaches to the promise already in flight or creates a fresh one (the caller
id doubles as the fresh promise id); the returned number is the promise this
caller awaits. -/
def refreshAccessTokenStep (caller : Nat) (st : SingleFlightState) :
    SingleFlightState × Nat :=
  match st.refreshPromise with
  | some p => (st, p)
  | none => (⟨some caller, caller :: st.createdRev⟩, caller)

/-- All `callers` run their check-and-set step, in the given order, before
the pending promise settles (this is what makes the calls concurrent).
Returns the final state and, per caller, the promise that caller awaits. -/
def runAcquires (callers : List Nat) (st : SingleFlightState) :
    SingleFlightState × List (Nat × Nat) :=
  match callers with
  | [] => (st, [])
  | c :: rest =>
    let s1 := refreshAccessTokenStep c st
    let s2 := runAcquires rest s1.1
    (s2.1, (c, s1.2) :: s2.2)

/-- One network dispatch as observed by `ApiClient.request`: the HTTP ok
flag and status of the response. -/
structure DispatchResult where
  ok : Bool
  status : Nat

/-- The 401-handling recursion of `ApiClient.request` (src/lib/api.ts:236–266):
the retry at line 245 is a full recursive `this.request(...)` call, so a 401
on the retried request goes through the same branch again. `dispatch i`
scripts the i-th network dispatch of this call chain, `refreshOk j` scripts
the j-th refresh attempt, and `refreshTokenUsable` models
`refreshToken && !JWTUtils.isTokenExpired(refreshToken)`. Returns
`(succeeded, total dispatches, total refreshes)`; `none` when the fuel runs
out, the source having no recursion bound. -/
def requestFrom (dispatch : Nat → DispatchResult) (refreshOk : Nat → Bool)
    (refreshTokenUsable : Bool) : Nat → Nat → Nat → Option (Bool × Nat × Nat)
  | 0, _, _ => none
  | fuel + 1, calls, refreshes =>
    let r := dispatch calls
    if r.ok then some (true, calls + 1, refreshes)
    else if r.status = 401 then
      if refreshTokenUsable then
        if refreshOk refreshes then
          requestFrom dispatch refreshOk refreshTokenUsable fuel (calls + 1) (refreshes + 1)
        else some (false, calls + 1, refreshes + 1)
      else some (false, calls + 1, refreshes)
    else some (false, calls + 1, refreshes)

/-- JavaScript truthiness of a nullable string: `null` and `""` are falsy. -/
def jsTruthyStr : Option String → Bool
  | none => false
  | some s => if s = ("") then false else true

/-- `data.message || data.error` (src/lib/api.ts:269). -/
def jsOrStr (a b : Option String) : Option String :=
  if jsTruthyStr a then a else b

/-- The error-message selection of `ApiClient.request` for non-ok, non-401
responses (src/lib/api.ts:268–304): prefer the server-supplied text, else
switch on the status code. -/
def requestErrorMessage (status : Nat) (message error : Option String) : String :=
  let errorMessage := jsOrStr message error
  if jsTruthyStr errorMessage then errorMessage.getD ("")
  else
    if status = 400 then "Invalid request. Please check your input and try again."
    else if status = 403 then "Access denied. You do not have permission to perform this action."
    else if status = 404 then "The requested resource was not found."
    else if status = 409 then "A conflict occurred. This email may already be registered."
    else if status = 422 then "Validation failed. Please check your input and try again."
    else if status = 429 then "Too many requests. Please wait a moment and try again."
    else if status = 500 then "Server error. Please try again later."
    else if status = 502 ∨ status = 503 ∨ status = 504 then
      "Service temporarily unavailable. Please try again later."
    else "Request failed with status " ++ natToString status

/-- The canonical per-status fallback messages as the specification lists
them: 400/422 validation, 403 forbidden, 404 not found, 409 conflict,
429 rate limited, 500 server error, 502/503/504 service unavailable, and a
generic message for every other status. -/
def canonicalMessage (status : Nat) : String :=
  if status = 400 then "Invalid request. Please check your input and try again."
  else if status = 422 then "Validation failed. Please check your input and try again."
  else if status = 403 then "Access denied. You do not have permission to perform this action."
  else if status = 404 then "The requested resource was not found."
  else if status = 409 then "A conflict occurred. This email may already be registered."
  else if status = 429 then "Too many requests. Please wait a moment and try again."
  else if status = 500 then "Server error. Please try again later."
  else if status = 502 ∨ status = 503 ∨ status = 504 then
    "Service temporarily unavailable. Please try again later."
  else "Request failed with status " ++ natToString status

/-! The rate limiter (class RateLimiter, src/lib/security.ts:140–210).
Times are integers in milliseconds; the clock is passed in per call. -/

/-- interface RateLimitEntry (src/lib/security.ts:140). -/
structure RateLimitEntry where
  count : Nat
  lastAttempt : Int
  blocked : Bool
deriving DecidableEq

/-- class RateLimiter (src/lib/security.ts:146): the `attempts` map and the
three configuration constants. -/
structure RateLimiter where
  attempts : String → Option RateLimitEntry
  maxAttempts : Nat
  windowMs : Int
  blockDurationMs : Int

/-- `this.attempts.set(identifier, e)`. -/
def RateLimiter.setEntry (rl : RateLimiter) (identifier : String) (e : RateLimitEntry) :
    RateLimiter :=
  { rl with attempts := fun k => if k = identifier then some e else rl.attempts k }

/-- `RateLimiter.isAllowed` (src/lib/security.ts:161–198): returns the
verdict and the mutated limiter. -/
def RateLimiter.isAllowed (rl : RateLimiter) (now : Int) (identifier : String) :
    Bool × RateLimiter :=
  match rl.attempts identifier with
  | none => (true, rl.setEntry identifier ⟨1, now, false⟩)
  | some entry =>
    if entry.blocked = true ∧ now - entry.lastAttempt < rl.blockDurationMs then
      (false, rl)
    else if now - entry.lastAttempt > rl.windowMs then
      (true, rl.setEntry identifier ⟨1, now, false⟩)
    else
      let newCount := entry.count + 1
      if newCount > rl.maxAttempts then
        (false, rl.setEntry identifier ⟨newCount, now, true⟩)
      else
        (true, rl.setEntry identifier ⟨newCount, now, false⟩)

/-- `Math.ceil(a / b)` for integer `a` and positive integer `b`. -/
def mathCeilDiv (a b : Int) : Int := -(Int.fdiv (-a) b)

/-- `RateLimiter.getBlockedTimeRemaining` (src/lib/security.ts:203–209). -/
def RateLimiter.getBlockedTimeRemaining (rl : RateLimiter) (now : Int)
    (identifier : String) : Int :=
  match rl.attempts identifier with
  | none => 0
  | some entry =>
    if entry.blocked = true then
      mathCeilDiv (rl.blockDurationMs - (now - entry.lastAttempt)) 60000
    else 0

/-- `loginRateLimiter` (src/lib/security.ts:213): 5 attempts per 15 minutes,
block for 30 minutes, starting with an empty attempts map. -/
def loginRateLimiter : RateLimiter :=
  ⟨fun _ => none, 5, 15 * 60 * 1000, 30 * 60 * 1000⟩

/-- A sequence of `isAllowed` calls for one identifier at the given clock
times, collecting the verdicts. -/
def RateLimiter.runAttempts (rl : RateLimiter) (identifier : String) :
    List Int → List Bool × RateLimiter
  | [] => ([], rl)
  | t :: ts =>
    let s1 := rl.isAllowed t identifier
    let s2 := s1.2.runAttempts identifier ts
    (s1.1 :: s2.1, s2.2)

/-- A limiter with the login configuration holding one fresh (never-blocked)
entry for `"u"`, three attempts in, last attempt at time 0. -/
def rlResetW : RateLimiter :=
  ⟨fun k => if k = ("u") then some ⟨3, 0, false⟩ else none, 5, 900000, 1800000⟩

/-- A limiter with the login configuration holding one blocked entry for
`"u"`, six attempts in, last attempt at time 0. -/
def rlBlockedW : RateLimiter :=
  ⟨fun k => if k = ("u") then some ⟨6, 0, true⟩ else none, 5, 900000, 1800000⟩

/-! Helper lemmas. -/

theorem toDecimalAux_eq_rec (f : Nat) :
    ∀ (n : Nat) (acc : List Nat), n < 10 ^ (f + 1) →
      toDecimalAux (f + 1) n acc = toDecimalRec n ++ acc := by
  induction f with
  | zero =>
    intro n acc h
    have h10 : n < 10 := by simpa using h
    simp [toDecimalAux, toDecimalRec, h10]
  | succ f ih =>
    intro n acc h
    by_cases h10 : n < 10
    · simp [toDecimalAux, toDecimalRec, h10]
    · have hdiv : n / 10 < 10 ^ (f + 1) := by
        have : n < 10 ^ (f + 1) * 10 := by
          calc n < 10 ^ (f + 1 + 1) := h
          _ = 10 ^ (f + 1) * 10 := by ring
        omega
      rw [show toDecimalAux (f + 1 + 1) n acc =
            toDecimalAux (f + 1) (n / 10) (n % 10 :: acc) by simp [toDecimalAux, h10]]
      rw [ih (n / 10) (n % 10 :: acc) hdiv]
      rw [show toDecimalRec n = toDecimalRec (n / 10) ++ [n % 10] by
            rw [toDecimalRec]; simp [h10]]
      simp

theorem toDecimalDigits_eq_rec (n : Nat) : toDecimalDigits n = toDecimalRec n := by
  have h : n < 10 ^ (n + 1) := by
    calc n < 10 ^ n := Nat.lt_pow_self (by omega) n
    _ ≤ 10 ^ (n + 1) := Nat.pow_le_pow_right (by omega) (by omega)
  simpa using toDecimalAux_eq_rec n n [] h

theorem foldl_toDecimalRec (n : Nat) :
    (toDecimalRec n).foldl (fun a d => a * 10 + d) 0 = n := by
  induction n using Nat.strong_induction_on with
  | _ n ih =>
    rw [toDecimalRec]
    by_cases h10 : n < 10
    · simp [h10]
    · simp only [h10, if_false]
      rw [List.foldl_append, ih (n / 10) (Nat.div_lt_self (by omega) (by omega))]
      simp only [List.foldl]
      omega

theorem toDecimalRec_lt (n : Nat) : ∀ d ∈ toDecimalRec n, d < 10 := by
  induction n using Nat.strong_induction_on with
  | _ n ih =>
    rw [toDecimalRec]
    by_cases h10 : n < 10
    · simp [h10]
    · simp only [h10, if_false]
      intro d hd
      rcases List.mem_append.mp hd with h | h
      · exact ih (n / 10) (Nat.div_lt_self (by omega) (by omega)) d h
      · simp at h
        omega

theorem toDecimalRec_ne_nil (n : Nat) : toDecimalRec n ≠ [] := by
  rw [toDecimalRec]
  by_cases h10 : n < 10 <;> simp [h10]

theorem charDigit_digitChar (d : Nat) (h : d < 10) : charDigit (digitChar d) = some d := by
  interval_cases d <;> decide

theorem mapM_charDigit_map (l : List Nat) (h : ∀ d ∈ l, d < 10) :
    (l.map digitChar).mapM charDigit = some l := by
  induction l with
  | nil => rfl
  | cons d l ih =>
    have hd : d < 10 := h d (by simp)
    have hl : ∀ x ∈ l, x < 10 := fun x hx => h x (by simp [hx])
    simp only [List.map_cons, List.mapM_cons, charDigit_digitChar d hd, ih hl]
    rfl

/-- Parsing the canonical decimal rendering returns the original number. -/
theorem parseDecimal_natToString (n : Nat) : parseDecimal (natToString n) = some n := by
  unfold parseDecimal natToString
  rw [toDecimalDigits_eq_rec]
  simp only [mapM_charDigit_map (toDecimalRec n) (toDecimalRec_lt n)]
  cases hm : toDecimalRec n with
  | nil => exact absurd hm (toDecimalRec_ne_nil n)
  | cons d ds =>
    show some ((d :: ds).foldl (fun a x => a * 10 + x) 0) = some n
    rw [← hm, foldl_toDecimalRec n]

theorem natToString_ne_empty (n : Nat) : natToString n ≠ ("") := by
  unfold natToString
  rw [toDecimalDigits_eq_rec]
  intro h
  have : (toDecimalRec n).map digitChar = [] := congrArg String.data h
  exact toDecimalRec_ne_nil n (List.map_eq_nil_iff.mp this)

theorem TokenStorage.getAccessToken_clearTokens (s : Store) :
    TokenStorage.getAccessToken (TokenStorage.clearTokens s) = none := by
  simp [TokenStorage.getAccessToken, TokenStorage.clearTokens, Store.getItem, Store.removeItem,
    TokenStorage.ACCESS_TOKEN_KEY, TokenStorage.REFRESH_TOKEN_KEY, TokenStorage.TOKEN_EXPIRY_KEY]

theorem TokenStorage.getRefreshToken_clearTokens (s : Store) :
    TokenStorage.getRefreshToken (TokenStorage.clearTokens s) = none := by
  simp [TokenStorage.getRefreshToken, TokenStorage.clearTokens, Store.getItem, Store.removeItem,
    TokenStorage.ACCESS_TOKEN_KEY, TokenStorage.REFRESH_TOKEN_KEY, TokenStorage.TOKEN_EXPIRY_KEY]

theorem TokenStorage.getTokenExpiry_clearTokens (s : Store) :
    TokenStorage.getTokenExpiry (TokenStorage.clearTokens s) = none := by
  simp [TokenStorage.getTokenExpiry, TokenStorage.clearTokens, Store.getItem, Store.removeItem,
    TokenStorage.ACCESS_TOKEN_KEY, TokenStorage.REFRESH_TOKEN_KEY, TokenStorage.TOKEN_EXPIRY_KEY]

theorem runAcquires_of_pending (p : Nat) (callers : List Nat) (st : SingleFlightState)
    (h : st.refreshPromise = some p) :
    runAcquires callers st = (st, callers.map (fun c => (c, p))) := by
  induction callers with
  | nil => simp [runAcquires]
  | cons c rest ih => simp [runAcquires, refreshAccessTokenStep, h, ih]

/-- Ceiling division of a positive numerator by a positive denominator is
positive. -/
theorem mathCeilDiv_pos (a b : Int) (ha : 0 < a) (hb : 0 < b) : 0 < mathCeilDiv a b := by
  unfold mathCeilDiv
  have h := Int.fdiv_neg' (show -a < 0 by omega) hb
  omega

theorem access_ne_refresh : TokenStorage.ACCESS_TOKEN_KEY ≠ TokenStorage.REFRESH_TOKEN_KEY := by
  decide

theorem access_ne_expiry : TokenStorage.ACCESS_TOKEN_KEY ≠ TokenStorage.TOKEN_EXPIRY_KEY := by
  decide

theorem refresh_ne_expiry : TokenStorage.REFRESH_TOKEN_KEY ≠ TokenStorage.TOKEN_EXPIRY_KEY := by
  decide

/-! The claims. -/

/-- C8: `setTokens(a, r, e)` at clock time `now` stores all three fields
such that the getters return `a`, `r` and `now + e·1000`, whatever triple
was stored before — the previous triple is fully superseded. -/
theorem C8_setTokens_roundtrip (s : Store) (a r : String) (e now : Nat) :
    TokenStorage.getAccessToken (TokenStorage.setTokens s a r e now) = some a ∧
    TokenStorage.getRefreshToken (TokenStorage.setTokens s a r e now) = some r ∧
    TokenStorage.getTokenExpiry (TokenStorage.setTokens s a r e now) = some (now + e * 1000) := by
  refine ⟨?_, ?_, ?_⟩
  · simp [TokenStorage.getAccessToken, TokenStorage.setTokens, Store.getItem, Store.setItem,
      TokenStorage.ACCESS_TOKEN_KEY, TokenStorage.REFRESH_TOKEN_KEY, TokenStorage.TOKEN_EXPIRY_KEY]
  · simp [TokenStorage.getRefreshToken, TokenStorage.setTokens, Store.getItem, Store.setItem,
      TokenStorage.ACCESS_TOKEN_KEY, TokenStorage.REFRESH_TOKEN_KEY, TokenStorage.TOKEN_EXPIRY_KEY]
  · simp only [TokenStorage.getTokenExpiry, TokenStorage.setTokens, Store.getItem, Store.setItem,
      if_pos]
    rw [if_neg (natToString_ne_empty (now + e * 1000))]
    exact parseDecimal_natToString (now + e * 1000)

/-- C9: `clearTokens` leaves all three credential fields absent, and running
it a second time is a no-op: the store is unchanged and no error is raised
(the model is a total function). -/
theorem C9_clear_idempotent (s : Store) :
    TokenStorage.getAccessToken (TokenStorage.clearTokens s) = none ∧
    TokenStorage.getRefreshToken (TokenStorage.clearTokens s) = none ∧
    TokenStorage.getTokenExpiry (TokenStorage.clearTokens s) = none ∧
    TokenStorage.clearTokens (TokenStorage.clearTokens s) = TokenStorage.clearTokens s := by
  refine ⟨TokenStorage.getAccessToken_clearTokens s, TokenStorage.getRefreshToken_clearTokens s,
    TokenStorage.getTokenExpiry_clearTokens s, ?_⟩
  funext k
  unfold TokenStorage.clearTokens Store.removeItem
  by_cases hE : k = TokenStorage.TOKEN_EXPIRY_KEY <;>
    by_cases hR : k = TokenStorage.REFRESH_TOKEN_KEY <;>
      by_cases hA : k = TokenStorage.ACCESS_TOKEN_KEY <;>
        simp [hE, hR, hA]

/-- C3, counterexample: the claim says the reset condition is measured from
when the current window started. Five allowed attempts for a fresh
identifier at times 0, 200000, …, 800000 leave a non-blocked entry whose
window started at time 0. At time 1000000 the elapsed time since the window
start (1000000 ms) exceeds windowMs = 900000, so the claim demands a reset
and an allowed verdict — but the code measures from the most recent attempt
(200000 ms ago), increments the count to 6 > 5 and denies. -/
theorem C3_counterexample :
    (loginRateLimiter.runAttempts ("user") [0, 200000, 400000, 600000, 800000]).1 =
      [true, true, true, true, true] ∧
    (loginRateLimiter.runAttempts ("user") [0, 200000, 400000, 600000, 800000]).2.attempts
      ("user") = some ⟨5, 800000, false⟩ ∧
    ((loginRateLimiter.runAttempts ("user") [0, 200000, 400000, 600000, 800000]).2.isAllowed
      1000000 ("user")).1 = false :=
  ⟨by decide, by decide, by decide⟩

/-- C3, amended: for an identifier with an existing, non-blocked entry, the
reset condition is measured from the entry's most recent attempt (a sliding
window): when `now - lastAttempt > windowMs`, `isAllowed` resets the entry
to count = 1, lastAttempt = now, blocked = false and returns allowed. -/
theorem C3_reset_from_last_attempt (rl : RateLimiter) (now : Int) (identifier : String)
    (entry : RateLimitEntry) (hfind : rl.attempts identifier = some entry)
    (hnb : entry.blocked = false)
    (hwin : now - entry.lastAttempt > rl.windowMs) :
    rl.isAllowed now identifier = (true, rl.setEntry identifier ⟨1, now, false⟩) := by
  simp only [RateLimiter.isAllowed, hfind]
  rw [if_neg (by simp [hnb])]
  rw [if_pos hwin]

/-- C3, witness: the amended theorem at a concrete limiter: an entry with
3 attempts whose last attempt is 1000000 ms old gets reset and allowed. -/
theorem C3_reset_witness :
    rlResetW.isAllowed 1000000 ("u") = (true, rlResetW.setEntry ("u") ⟨1, 1000000, false⟩) :=
  C3_reset_from_last_attempt rlResetW 1000000 ("u") ⟨3, 0, false⟩ (by decide) rfl (by decide)

/-- C7, counterexample: the claim says `getBlockedTimeRemaining` is a
positive minute count for any blocked identifier and 0 once the block has
elapsed. After six attempts at time 0 the entry for `"user"` is blocked;
at time 2400000 (40 minutes later, block duration 30 minutes) the code
returns `ceil((1800000 − 2400000)/60000) = −10` — negative, not 0. -/
theorem C7_counterexample :
    (loginRateLimiter.runAttempts ("user") [0, 0, 0, 0, 0, 0]).2.attempts ("user") =
      some ⟨6, 0, true⟩ ∧
    (loginRateLimiter.runAttempts ("user") [0, 0, 0, 0, 0, 0]).2.getBlockedTimeRemaining
      2400000 ("user") = -10 ∧
    ¬(0 < (loginRateLimiter.runAttempts ("user") [0, 0, 0, 0, 0, 0]).2.getBlockedTimeRemaining
      2400000 ("user")) ∧
    (loginRateLimiter.runAttempts ("user") [0, 0, 0, 0, 0, 0]).2.getBlockedTimeRemaining
      2400000 ("user") ≠ 0 :=
  ⟨by decide, by decide, by decide, by decide⟩

/-- C7, amended: `getBlockedTimeRemaining` returns 0 for an identifier with
no entry or a non-blocked entry; for a block-flagged entry it returns
`ceil((blockMs − elapsed-since-last-attempt)/60000)`, which is positive
while the block duration has not yet elapsed (it can be zero or negative
once the block duration has elapsed without an intervening call). -/
theorem C7_blocked_time (rl : RateLimiter) (now : Int) (identifier : String) :
    (rl.attempts identifier = none → rl.getBlockedTimeRemaining now identifier = 0) ∧
    (∀ e, rl.attempts identifier = some e → e.blocked = false →
      rl.getBlockedTimeRemaining now identifier = 0) ∧
    (∀ e, rl.attempts identifier = some e → e.blocked = true →
      rl.getBlockedTimeRemaining now identifier =
        mathCeilDiv (rl.blockDurationMs - (now - e.lastAttempt)) 60000 ∧
      (now - e.lastAttempt < rl.blockDurationMs →
        0 < rl.getBlockedTimeRemaining now identifier)) := by
  refine ⟨?_, ?_, ?_⟩
  · intro h
    unfold RateLimiter.getBlockedTimeRemaining
    rw [h]
  · intro e he hb
    unfold RateLimiter.getBlockedTimeRemaining
    rw [he]
    simp [hb]
  · intro e he hb
    have heq : rl.getBlockedTimeRemaining now identifier =
        mathCeilDiv (rl.blockDurationMs - (now - e.lastAttempt)) 60000 := by
      unfold RateLimiter.getBlockedTimeRemaining
      rw [he]
      simp [hb]
    refine ⟨heq, fun hlt => ?_⟩
    rw [heq]
    exact mathCeilDiv_pos _ _ (by omega) (by omega)

/-- C7, witness: the amended theorem at a concrete limiter: an unknown
identifier gives 0; a blocked entry 10 minutes into a 30-minute block gives
the positive ceiling value. -/
theorem C7_blocked_time_witness :
    rlBlockedW.getBlockedTimeRemaining 0 ("v") = 0 ∧
    rlBlockedW.getBlockedTimeRemaining 600000 ("u") =
      mathCeilDiv (rlBlockedW.blockDurationMs - (600000 - 0)) 60000 ∧
    0 < rlBlockedW.getBlockedTimeRemaining 600000 ("u") := by
  have h1 := (C7_blocked_time rlBlockedW 0 ("v")).1 (by decide)
  have h3 := (C7_blocked_time rlBlockedW 600000 ("u")).2.2 ⟨6, 0, true⟩ (by decide) rfl
  exact ⟨h1, h3.1, h3.2 (by decide)⟩

/-- C10: a call to `isAllowed` for a blocked identifier made while less than
`blockDurationMs` has elapsed since its last recorded attempt is denied and
leaves the limiter completely unchanged (count, lastAttempt and blocked
included), so the underlying remaining block time strictly decreases as the
clock advances. -/
theorem C10_blocked_frame (rl : RateLimiter) (now now' : Int) (identifier : String)
    (entry : RateLimitEntry) (hfind : rl.attempts identifier = some entry)
    (hb : entry.blocked = true)
    (hlt : now - entry.lastAttempt < rl.blockDurationMs)
    (hord : now < now') :
    rl.isAllowed now identifier = (false, rl) ∧
    rl.blockDurationMs - (now' - entry.lastAttempt) <
      rl.blockDurationMs - (now - entry.lastAttempt) := by
  constructor
  · simp only [RateLimiter.isAllowed, hfind]
    rw [if_pos (show entry.blocked = true ∧ now - entry.lastAttempt < rl.blockDurationMs from
      ⟨hb, hlt⟩)]
  · omega

/-- C10, witness: the blocked entry for `"u"` at time 5 is denied with the
limiter unchanged, and the remaining time at time 6 is below that at 5. -/
theorem C10_blocked_frame_witness :
    rlBlockedW.isAllowed 5 ("u") = (false, rlBlockedW) ∧
    rlBlockedW.blockDurationMs - (6 - 0) < rlBlockedW.blockDurationMs - (5 - 0) := by
  have h := C10_blocked_frame rlBlockedW 5 6 ("u") ⟨6, 0, true⟩ (by decide) rfl (by decide)
    (by decide)
  exact ⟨h.1, h.2⟩

/-- C4: for any host oracles and clock, a token whose dot-split does not
have exactly 3 segments, or whose middle segment fails base64url decoding,
or whose decoded payload fails JSON parsing, decodes to Invalid (`none`) and
is reported expired (fail-closed). `decodeToken` and `isTokenExpired` are
total Lean functions, so no input can raise. -/
theorem C4_decode_fail_closed (atob : List Char → Option (List Char))
    (jsonParse : List Char → Option JWTPayload) (now : Int) (token : List Char)
    (h : (∀ x y z, jsSplit ('.') token ≠ [x, y, z]) ∨
      (∃ x y z, jsSplit ('.') token = [x, y, z] ∧
        (atob (JWTUtils.base64urlAdjust y) = none ∨
          ∃ d, atob (JWTUtils.base64urlAdjust y) = some d ∧ jsonParse d = none))) :
    JWTUtils.decodeToken atob jsonParse token = none ∧
    JWTUtils.isTokenExpired atob jsonParse now token = true := by
  have hd : JWTUtils.decodeToken atob jsonParse token = none := by
    unfold JWTUtils.decodeToken
    rcases h with h | ⟨x, y, z, hxyz, h⟩
    · rcases hs : jsSplit ('.') token with _ | ⟨a, _ | ⟨b, _ | ⟨c, _ | ⟨d, t⟩⟩⟩⟩
      · rfl
      · rfl
      · rfl
      · exact absurd hs (h a b c)
      · rfl
    · simp only [hxyz]
      rcases h with hnone | ⟨d, hsome, hparse⟩
      · simp only [hnone]
      · simp only [hsome]
        exact hparse
  refine ⟨hd, ?_⟩
  unfold JWTUtils.isTokenExpired
  rw [hd]

/-- C4, witness: the concrete token `"a.b.c"` under an `atob` oracle that
rejects everything decodes to Invalid and is reported expired. -/
theorem C4_decode_fail_closed_witness :
    JWTUtils.decodeToken (fun _ => none) (fun _ => none) ['a', '.', 'b', '.', 'c'] = none ∧
    JWTUtils.isTokenExpired (fun _ => none) (fun _ => none) 0 ['a', '.', 'b', '.', 'c'] = true :=
  C4_decode_fail_closed (fun _ => none) (fun _ => none) 0 ['a', '.', 'b', '.', 'c']
    (Or.inr ⟨['a'], ['b'], ['c'], by decide, Or.inl rfl⟩)

/-- C5: when a refresh attempt with a present refresh token fails — the
token itself expired (then with no network call), or the remote call failed
with a non-success status, a malformed response, or a transport error — all
three stored credential fields are removed in the store state in which the
failure propagates. -/
theorem C5_refresh_failure_clears (s : Store) (isExpired : String → Bool) (now : Nat)
    (fetch : FetchOutcome) (rt : String)
    (hrt : TokenStorage.getRefreshToken s = some rt)
    (hfail : (performTokenRefresh s isExpired now fetch).result = Except.error ()) :
    TokenStorage.getAccessToken (performTokenRefresh s isExpired now fetch).store = none ∧
    TokenStorage.getRefreshToken (performTokenRefresh s isExpired now fetch).store = none ∧
    TokenStorage.getTokenExpiry (performTokenRefresh s isExpired now fetch).store = none ∧
    (isExpired rt = true → (performTokenRefresh s isExpired now fetch).networkCalls = 0) := by
  by_cases hexp : isExpired rt = true
  · have hres : performTokenRefresh s isExpired now fetch =
        ⟨TokenStorage.clearTokens s, Except.error (), 0⟩ := by
      simp only [performTokenRefresh, hrt, hexp, if_true]
    rw [hres]
    exact ⟨TokenStorage.getAccessToken_clearTokens s, TokenStorage.getRefreshToken_clearTokens s,
      TokenStorage.getTokenExpiry_clearTokens s, fun _ => rfl⟩
  · have hexp' : isExpired rt = false := by
      cases hv : isExpired rt
      · rfl
      · exact absurd hv hexp
    have hclear : (performTokenRefresh s isExpired now fetch).store =
        TokenStorage.clearTokens s := by
      cases fetch with
      | fetchFailed => simp [performTokenRefresh, hrt, hexp']
      | resp ok success data =>
        cases ok with
        | false => simp [performTokenRefresh, hrt, hexp']
        | true =>
          cases success with
          | false => simp [performTokenRefresh, hrt, hexp']
          | true =>
            cases data with
            | none => simp [performTokenRefresh, hrt, hexp']
            | some d =>
              exfalso
              have hok : (performTokenRefresh s isExpired now
                  (FetchOutcome.resp true true (some d))).result = Except.ok d.access_token := by
                simp [performTokenRefresh, hrt, hexp']
              rw [hok] at hfail
              exact Except.noConfusion hfail
    rw [hclear]
    exact ⟨TokenStorage.getAccessToken_clearTokens s, TokenStorage.getRefreshToken_clearTokens s,
      TokenStorage.getTokenExpiry_clearTokens s, fun hc => absurd hc (by simp [hexp'])⟩

/-- C5, witness: a store holding an expired refresh token: the refresh fails
with no network call and all three getters read absent afterwards. -/
theorem C5_refresh_failure_clears_witness :
    TokenStorage.getAccessToken
      (performTokenRefresh (fun _ => some ("r")) (fun _ => true) 0
        FetchOutcome.fetchFailed).store = none ∧
    TokenStorage.getRefreshToken
      (performTokenRefresh (fun _ => some ("r")) (fun _ => true) 0
        FetchOutcome.fetchFailed).store = none ∧
    TokenStorage.getTokenExpiry
      (performTokenRefresh (fun _ => some ("r")) (fun _ => true) 0
        FetchOutcome.fetchFailed).store = none ∧
    (performTokenRefresh (fun _ => some ("r")) (fun _ => true) 0
      FetchOutcome.fetchFailed).networkCalls = 0 := by
  have h := C5_refresh_failure_clears (fun _ => some ("r")) (fun _ => true) 0
    FetchOutcome.fetchFailed "r" rfl rfl
  exact ⟨h.1, h.2.1, h.2.2.1, h.2.2.2 rfl⟩

/-- C1, counterexample: the claim demands exactly one network call to the
refresh endpoint for every batch of concurrent acquires made while no
refresh is in flight. With both tokens stored but the refresh token itself
expired, two concurrent callers share one pending promise (the premise
holds: no refresh was in flight), yet zero network calls are issued — the
expired-refresh-token path fails before reaching the network. -/
theorem C1_counterexample :
    (runAcquires [0, 1] ⟨none, []⟩).1.createdRev = [0] ∧
    (runAcquires [0, 1] ⟨none, []⟩).2 = [(0, 0), (1, 0)] ∧
    TokenStorage.getRefreshToken (fun _ => some ("r")) = some ("r") ∧
    (performTokenRefresh (fun _ => some ("r")) (fun _ => true) 0
      FetchOutcome.fetchFailed).networkCalls = 0 ∧
    (performTokenRefresh (fun _ => some ("r")) (fun _ => true) 0
      FetchOutcome.fetchFailed).networkCalls ≠ 1 :=
  ⟨rfl, rfl, rfl, rfl, by decide⟩

/-- C1, amended: for every batch of concurrent `acquireToken` callers that
run while no refresh is in flight, exactly one promise is created — every
caller awaits that same promise, so all resolve with its single settled
outcome — and its one execution of `performTokenRefresh` makes at most one
network call: exactly one when the stored refresh token is present and not
itself expired, and zero when the refresh token is missing or when it is
present but expired. -/
theorem C1_single_flight (c : Nat) (rest : List Nat) (s : Store) (isExpired : String → Bool)
    (now : Nat) (fetch : FetchOutcome) :
    (runAcquires (c :: rest) ⟨none, []⟩).1.createdRev = [c] ∧
    (runAcquires (c :: rest) ⟨none, []⟩).2 = (c :: rest).map (fun x => (x, c)) ∧
    (performTokenRefresh s isExpired now fetch).networkCalls ≤ 1 ∧
    (∀ rt, TokenStorage.getRefreshToken s = some rt → isExpired rt = false →
      (performTokenRefresh s isExpired now fetch).networkCalls = 1) ∧
    (TokenStorage.getRefreshToken s = none →
      (performTokenRefresh s isExpired now fetch).networkCalls = 0) ∧
    (∀ rt, TokenStorage.getRefreshToken s = some rt → isExpired rt = true →
      (performTokenRefresh s isExpired now fetch).networkCalls = 0) := by
  have hrun : runAcquires (c :: rest) ⟨none, []⟩ =
      (⟨some c, [c]⟩, (c, c) :: rest.map (fun x => (x, c))) := by
    simp only [runAcquires, refreshAccessTokenStep]
    rw [runAcquires_of_pending c rest ⟨some c, [c]⟩ rfl]
  refine ⟨by rw [hrun], by rw [hrun]; rfl, ?_, ?_, ?_, ?_⟩
  · unfold performTokenRefresh
    cases hg : TokenStorage.getRefreshToken s with
    | none => simp
    | some rt =>
      by_cases hexp : isExpired rt <;> simp only [hexp, if_true, if_false]
      · simp
      · cases fetch with
        | fetchFailed => simp
        | resp ok success data =>
          cases ok <;> simp only [if_true, if_false]
          · simp
          · cases success <;> cases data <;> simp
  · intro rt hrt hexp
    simp only [performTokenRefresh, hrt, hexp]
    cases fetch with
    | fetchFailed => rfl
    | resp ok success data =>
      cases ok <;> cases success <;> cases data <;> rfl
  · intro hnone
    simp only [performTokenRefresh, hnone]
  · intro rt hrt hexp
    simp only [performTokenRefresh, hrt, hexp, if_true]

/-- C1, witness: three concurrent callers all await promise 7; a refresh
with a present, unexpired refresh token and a successful response makes
exactly one network call; a refresh with no stored refresh token makes
zero; a refresh with a present but expired refresh token makes zero. -/
theorem C1_single_flight_witness :
    (runAcquires [7, 8, 9] ⟨none, []⟩).2 = [(7, 7), (8, 7), (9, 7)] ∧
    (performTokenRefresh (fun _ => some ("r")) (fun _ => false) 0
      (FetchOutcome.resp true true (some ⟨"na", "nr", 3600⟩))).networkCalls = 1 ∧
    (performTokenRefresh (fun _ => none) (fun _ => false) 0
      FetchOutcome.fetchFailed).networkCalls = 0 ∧
    (performTokenRefresh (fun _ => some ("r")) (fun _ => true) 5
      FetchOutcome.fetchFailed).networkCalls = 0 := by
  have h1 := C1_single_flight 7 [8, 9] (fun _ => some ("r")) (fun _ => false) 0
    (FetchOutcome.resp true true (some ⟨"na", "nr", 3600⟩))
  have h2 := C1_single_flight 7 [8, 9] (fun _ => none) (fun _ => false) 0
    FetchOutcome.fetchFailed
  have h3 := C1_single_flight 7 [8, 9] (fun _ => some ("r")) (fun _ => true) 5
    FetchOutcome.fetchFailed
  exact ⟨h1.2.1, h1.2.2.2.1 "r" rfl rfl, h2.2.2.2.2.1 rfl, h3.2.2.2.2.2 "r" rfl rfl⟩

/-- C2: evaluation of the 401-handling recursion at the claim's failing
input. The claim says a 401 on the retried request must not trigger another
refresh or dispatch (exactly 2 dispatches and 1 refresh in the
refresh-succeeds case). The retry at src/lib/api.ts:245 is a full recursive
`this.request(...)` call with no already-retried flag, contradicting the
comment at line 239 ("if we haven't already tried"): scripting 401, 401,
then 200 with refreshes succeeding produces 3 dispatches and 2 refreshes. -/
theorem C2_retry_unbounded :
    requestFrom (fun i => if i < 2 then ⟨false, 401⟩ else ⟨true, 200⟩) (fun _ => true) true
      10 0 0 = some (true, 3, 2) := by
  decide

/-- C6, counterexample: the claim maps every 5xx status without a
server-supplied message to a server-unavailable message, but status 501
falls through to the generic default, which is neither the 500 message nor
the 502/503/504 message. -/
theorem C6_counterexample :
    requestErrorMessage 501 none none = "Request failed with status 501" ∧
    requestErrorMessage 501 none none ≠ "Server error. Please try again later." ∧
    requestErrorMessage 501 none none ≠
      "Service temporarily unavailable. Please try again later." :=
  ⟨by decide, by decide, by decide⟩

/-- C6, amended: the surfaced message for a non-success, non-401 response is
the server-supplied `message` when truthy, else the server-supplied `error`
when truthy, else the canonical per-status message: 400/422 validation,
403 forbidden, 404 not found, 409 conflict, 429 rate limited, 500 server
error, 502/503/504 service unavailable, and the generic
`Request failed with status N` for every other status (including 501 and
505–599). -/
theorem C6_message_mapping (status : Nat) (message error : Option String) :
    (∀ m, message = some m → m ≠ ("") → requestErrorMessage status message error = m) ∧
    ((message = none ∨ message = some ("")) →
      ∀ m, error = some m → m ≠ ("") → requestErrorMessage status message error = m) ∧
    ((message = none ∨ message = some ("")) → (error = none ∨ error = some ("")) →
      requestErrorMessage status message error = canonicalMessage status) := by
  refine ⟨?_, ?_, ?_⟩
  · intro m hm hne
    subst hm
    simp [requestErrorMessage, jsOrStr, jsTruthyStr, hne]
  · intro hmsg m hm hne
    subst hm
    have hfalse : jsTruthyStr message = false := by
      rcases hmsg with h | h <;> simp [h, jsTruthyStr]
    have h1 : jsOrStr message (some m) = some m := by simp [jsOrStr, hfalse]
    simp [requestErrorMessage, h1, jsTruthyStr, hne]
  · intro hmsg herr
    have hfalse : jsTruthyStr message = false := by
      rcases hmsg with h | h <;> simp [h, jsTruthyStr]
    have hfalse' : jsTruthyStr error = false := by
      rcases herr with h | h <;> simp [h, jsTruthyStr]
    have hor : jsTruthyStr (jsOrStr message error) = false := by
      simp [jsOrStr, hfalse, hfalse']
    simp only [requestErrorMessage, hor, Bool.false_eq_true, if_false]
    by_cases h400 : status = 400
    · subst h400; rfl
    by_cases h403 : status = 403
    · subst h403; rfl
    by_cases h404 : status = 404
    · subst h404; rfl
    by_cases h409 : status = 409
    · subst h409; rfl
    by_cases h422 : status = 422
    · subst h422; rfl
    by_cases h429 : status = 429
    · subst h429; rfl
    by_cases h500 : status = 500
    · subst h500; rfl
    by_cases h502 : status = 502
    · subst h502; rfl
    by_cases h503 : status = 503
    · subst h503; rfl
    by_cases h504 : status = 504
    · subst h504; rfl
    simp [canonicalMessage, h400, h403, h404, h409, h422, h429, h500, h502, h503, h504]

/-- C6, witness: a server-supplied message wins; a server-supplied error is
used when the message is absent; with neither, status 404 maps to its
canonical message. -/
theorem C6_message_mapping_witness :
    requestErrorMessage 404 (some ("Custom")) none = "Custom" ∧
    requestErrorMessage 404 none (some ("Err")) = "Err" ∧
    requestErrorMessage 404 none none = canonicalMessage 404 :=
  ⟨(C6_message_mapping 404 (some ("Custom")) none).1 "Custom" rfl (by decide),
    (C6_message_mapping 404 none (some ("Err"))).2.1 (Or.inl rfl) "Err" rfl (by decide),
    (C6_message_mapping 404 none none).2.2 (Or.inl rfl) (Or.inl rfl)⟩

end SAS
